import Mathlib

/-
Verification of the Bengaluru House Price Predictor app (src/app.py).

The app is a single Streamlit script: a cached model load
(`load_model_and_data`, decorated with `@st.cache_data`), a prediction
wrapper (`predict_price`) that catches all exceptions, and a `main`
function that renders the form, two advisory warnings, a price box and
three metric tiles.

Embedding conventions:
* Streamlit rendering calls (`st.error`, `st.warning`, `st.markdown`,
  `st.metric`, `st.title`, `st.subheader`) become entries of an `Effect`
  trace, emitted in program order.
* Python floats are modelled as rationals (`ℚ`); the widget integers as `ℤ`.
* A raised Python exception is `Except.error msg`; where the source has no
  `try`/`except`, the error propagates as the `Option String` "uncaught
  exception" component of a run.
* The opaque fitted pipeline is a function from the single-row input frame
  to `Except String (List ℚ)`: `model.predict` either raises or returns an
  output array.
-/

namespace BengaluruApp

/-- Rendering calls made through the Streamlit API, in program order. -/
inductive Effect where
  | title (s : String)
  | subheader (s : String)
  | markdown (s : String)
  | error (s : String)
  | warning (s : String)
  | metric (label value : String)
  deriving DecidableEq

/-- The single-row DataFrame built in `predict_price` (src/app.py:60-65):
columns `location`, `total_sqft`, `bath`, `bhk`. -/
structure InputRow where
  location : String
  total_sqft : ℚ
  bath : ℚ
  bhk : ℚ

/-- An opaque fitted pipeline: `model.predict` on the single-row frame
either raises or returns an output array. -/
def Model : Type := InputRow → Except String (List ℚ)

/-- Python exception message for `None * int` (metrics section, src/app.py:162). -/
def typeErrMulMsg : String :=
  "TypeError: unsupported operand types for *: NoneType and int"

/-- Python exception message for `None / int` (metrics section, src/app.py:164). -/
def typeErrDivMsg : String :=
  "TypeError: unsupported operand types for /: NoneType and int"

/-- Python exception message for division by zero. -/
def zeroDivMsg : String := "ZeroDivisionError: division by zero"

/-- Python true division `a / b`: raises `ZeroDivisionError` when `b = 0`. -/
def pydiv (a b : ℚ) : Except String ℚ :=
  if b = 0 then Except.error zeroDivMsg else Except.ok (a / b)

/-- Python `price * x` where `price` may be `None` (after a failed
prediction): `None * x` raises `TypeError`. -/
def pyMul (price : Option ℚ) (x : ℚ) : Except String ℚ :=
  match price with
  | none => Except.error typeErrMulMsg
  | some v => Except.ok (v * x)

/-- Python `price / d` where `price` may be `None`: `None / d` raises
`TypeError`; otherwise ordinary true division. -/
def pyDivOpt (price : Option ℚ) (d : ℚ) : Except String ℚ :=
  match price with
  | none => Except.error typeErrDivMsg
  | some v => pydiv v d

/-- Two-digit zero padding for the fractional part of a formatted number. -/
def pad2 (k : Nat) : String :=
  if k < 10 then "0" ++ toString k else toString k

/-- Python `f"{q:.2f}"` on the rational model of a float: round to two
decimal places and print with exactly two fractional digits. -/
def fmt2 (q : ℚ) : String :=
  let n : ℤ := Int.floor (q * 100 + 1 / 2)
  let sign : String := if n < 0 then "-" else ""
  let m : ℕ := n.natAbs
  sign ++ toString (m / 100) ++ "." ++ pad2 (m % 100)

/-- The hard-coded list of 14 location options (src/app.py:47-51). -/
def locationsList : List String :=
  ["Whitefield", "Electronic City", "Kanakpura Road", "Thanisandra",
   "Yelahanka", "Uttarahalli", "Hebbal", "Marathahalli", "Raja Rajeshwari Nagar",
   "Bannerghatta Road", "Hennur Road", "7th Phase JP Nagar", "Haralur Road",
   "Electronic City Phase II"]

/-- Body of `predict_price` (src/app.py:57-71): build the single-row frame
(with `float(...)` conversions of the integer widget values), call
`model.predict`, take element `[0]` of the output; any exception in the
`try` block (model raising, or `IndexError` on an empty output) is caught
and turned into an `st.error` plus a `None` result. -/
def predict_price (location : String) (sqft bath bhk : ℤ) (model : Model) :
    Option ℚ × List Effect :=
  let input : InputRow := ⟨location, (sqft : ℚ), (bath : ℚ), (bhk : ℚ)⟩
  match model input with
  | Except.error e => (none, [Effect.error ("Error making prediction: " ++ e)])
  | Except.ok prediction =>
      match prediction with
      | [] => (none, [Effect.error ("Error making prediction: IndexError: index 0 is out of bounds")])
      | p :: _ => (some p, [])

/-- State of the `@st.cache_data` cache for `load_model_and_data` within one
process: the memoized return value together with the captured Streamlit
elements (replayed on cache hits), plus a counter of attempts to
deserialize the artifact from storage (`joblib.load`). -/
structure LoadCacheState where
  cached : Option ((Option Model × Option (List String)) × List Effect)
  diskReads : ℕ

/-- The cache state of a freshly started process: empty, no storage reads. -/
def freshCache : LoadCacheState := ⟨none, 0⟩

/-- `load_model_and_data` (src/app.py:41-55) under `@st.cache_data`: on a
cache miss, attempt `joblib.load` (one storage read); on success return the
model and the hard-coded location list, on any exception emit `st.error`
and return `(None, None)`; the return value and captured elements are
memoized, and a cache hit replays them without touching storage. -/
def load_model_and_data (loader : Except String Model) (s : LoadCacheState) :
    (Option Model × Option (List String)) × List Effect × LoadCacheState :=
  match s.cached with
  | some (r, effs) => (r, effs, s)
  | none =>
      match loader with
      | Except.ok m =>
          ((some m, some locationsList), [],
            ⟨some ((some m, some locationsList), []), s.diskReads + 1⟩)
      | Except.error e =>
          let effs := [Effect.error ("Error loading model or data: " ++ e)]
          ((none, none), effs, ⟨some ((none, none), effs), s.diskReads + 1⟩)

/-- A `st.number_input` widget with declared bounds: the value it yields is
always clamped into `[minv, maxv]` (the widget rejects anything outside its
declared range). -/
def number_input (minv maxv userVal : ℤ) : ℤ :=
  max minv (min maxv userVal)

/-- Warning text for `bath > bhk + 2` (src/app.py:135). -/
def bathWarnMsg : String :=
  "Having bathrooms more than BHK+2 is unusual. Are you sure?"

/-- Warning text for `total_sqft/bhk < 200` (src/app.py:138). -/
def areaWarnMsg : String :=
  "The square feet per bedroom seems to be very low. Please verify the input."

/-- Blocking error shown when the load result is missing a component
(src/app.py:78). -/
def loadFailMsg : String :=
  "Failed to load necessary components. Please check the model and data files."

/-- The f-string fragment `₹ \x7bprice:.2f\x7d Lakhs` of the prediction box
(src/app.py:148). -/
def lakhsString (price : ℚ) : String :=
  "₹ " ++ fmt2 price ++ " Lakhs"

/-- The f-string fragment `₹ \x7bprice * 0.1:.2f\x7d Million` of the
prediction box (src/app.py:149). -/
def millionString (price : ℚ) : String :=
  "₹ " ++ fmt2 (price * (1 / 10)) ++ " Million"

/-- The HTML blob passed to `st.markdown` for a successful prediction
(src/app.py:145-151). -/
def priceBoxHtml (price : ℚ) : String :=
  "<div class=\x22prediction-box\x22><h3 style=\x27text-align: center;\x27>Estimated Price</h3>" ++
  "<h2 style=\x27text-align: center; color: #ff4b4b;\x27>" ++ lakhsString price ++ "</h2>" ++
  "<p style=\x27text-align: center;\x27>(" ++ millionString price ++ ")</p></div>"

/-- Header elements rendered once the load succeeded (src/app.py:82-92,
including the two column subheaders). -/
def headerEffects : List Effect :=
  [Effect.title "🏠 Bengaluru House Price Predictor",
   Effect.markdown "This app predicts house prices in Bengaluru based on location, size, and amenities. Enter your requirements below to get an estimated price!",
   Effect.subheader "Property Details",
   Effect.subheader "Price Estimate"]

/-- The divider and section header before the metric tiles
(src/app.py:154-155). -/
def insightsEffects : List Effect :=
  [Effect.markdown "---", Effect.subheader "📊 Price Insights"]

/-- Footer elements (src/app.py:169-174). -/
def footerEffects : List Effect :=
  [Effect.markdown "---",
   Effect.markdown "<div style=\x27text-align: center\x27><p>Data source: Bengaluru House Price Dataset</p></div>"]

/-- Body of `main` after a successful load (src/app.py:81-174): render the
header and widgets; if the button was pressed, run the two advisory checks,
call `predict_price`, and render the price box when a price came back; then
the metrics section, which runs whenever `price` is bound in `locals()`
(i.e. whenever the button was pressed) and computes
`price * 100000 / total_sqft`, `price / bhk` and `total_sqft / bhk` —
`price` may be `None` here, in which case the arithmetic raises. The result
is the effect trace together with the uncaught exception, if any. -/
def mainAfterLoad (model : Model) (locations : List String) (locIdx : ℕ)
    (sqftUser bhkUser bathUser : ℤ) (pressed : Bool) :
    List Effect × Option String :=
  let location := locations.getD locIdx ""
  let total_sqft := number_input 100 2200 sqftUser
  let bhk := number_input 1 10 bhkUser
  let bath := number_input 1 10 bathUser
  if pressed then
    let w1 : List Effect :=
      if bath > bhk + 2 then [Effect.warning bathWarnMsg] else []
    match pydiv (total_sqft : ℚ) (bhk : ℚ) with
    | Except.error e => (headerEffects ++ w1, some e)
    | Except.ok ratio =>
        let w2 : List Effect :=
          if ratio < 200 then [Effect.warning areaWarnMsg] else []
        let res := predict_price location total_sqft bath bhk model
        let box : List Effect :=
          match res.1 with
          | some p => [Effect.markdown (priceBoxHtml p)]
          | none => []
        let pre := headerEffects ++ w1 ++ w2 ++ res.2 ++ box ++ insightsEffects
        match pyMul res.1 100000 with
        | Except.error e => (pre, some e)
        | Except.ok v0 =>
            match pydiv v0 (total_sqft : ℚ) with
            | Except.error e => (pre, some e)
            | Except.ok v1 =>
                let m1 := [Effect.metric "Price per Sq.ft" ("₹ " ++ fmt2 v1)]
                match pyDivOpt res.1 (bhk : ℚ) with
                | Except.error e => (pre ++ m1, some e)
                | Except.ok v2 =>
                    let m2 := [Effect.metric "Price per BHK" ("₹ " ++ fmt2 v2 ++ " Lakhs")]
                    match pydiv (total_sqft : ℚ) (bhk : ℚ) with
                    | Except.error e => (pre ++ m1 ++ m2, some e)
                    | Except.ok v3 =>
                        let m3 := [Effect.metric "Area per BHK" (fmt2 v3 ++ " sq.ft")]
                        (pre ++ m1 ++ m2 ++ m3 ++ footerEffects, none)
  else
    (headerEffects ++ insightsEffects ++ footerEffects, none)

/-- The guard at the top of `main` (src/app.py:75-79): if either component
of the load result is `None`, show the blocking error and return before
anything else is rendered; otherwise run the rest of `main`. -/
def mainWithLoad (loaded : Option Model × Option (List String)) (locIdx : ℕ)
    (sqftUser bhkUser bathUser : ℤ) (pressed : Bool) :
    List Effect × Option String :=
  match loaded with
  | (some model, some locations) =>
      mainAfterLoad model locations locIdx sqftUser bhkUser bathUser pressed
  | _ => ([Effect.error loadFailMsg], none)

/-- One full script run: `load_model_and_data` (against the given cache
state) followed by `main`'s body. Returns the effect trace, the uncaught
exception (if any), and the new cache state. -/
def runApp (loader : Except String Model) (cache : LoadCacheState)
    (locIdx : ℕ) (sqftUser bhkUser bathUser : ℤ) (pressed : Bool) :
    List Effect × Option String × LoadCacheState :=
  let r := load_model_and_data loader cache
  let m := mainWithLoad r.1 locIdx sqftUser bhkUser bathUser pressed
  (r.2.1 ++ m.1, m.2, r.2.2)

/-! Helper lemmas shared by several claim theorems. -/

theorem number_input_ge_min (minv maxv userVal : ℤ) :
    minv ≤ number_input minv maxv userVal :=
  le_max_left _ _

theorem number_input_id {minv maxv v : ℤ} (h1 : minv ≤ v) (h2 : v ≤ maxv) :
    number_input minv maxv v = v := by
  unfold number_input
  rw [min_eq_right h2, max_eq_right h1]

theorem intCast_ne_zero_of_one_le {n : ℤ} (h : 1 ≤ n) : (n : ℚ) ≠ 0 := by
  exact_mod_cast (by omega : n ≠ 0)

/-- C1: within one process, the second invocation of `load_model_and_data`
returns the memoized result of the first — the same model handle and the
same location list — and the artifact is deserialized from storage exactly
once across the two calls. -/
theorem load_model_and_data_memoized (loader : Except String Model) :
    (load_model_and_data loader
        (load_model_and_data loader freshCache).2.2).1 =
      (load_model_and_data loader freshCache).1 ∧
    (load_model_and_data loader
        (load_model_and_data loader freshCache).2.2).2.2 =
      (load_model_and_data loader freshCache).2.2 ∧
    (load_model_and_data loader freshCache).2.2.diskReads = 1 ∧
    (load_model_and_data loader
        (load_model_and_data loader freshCache).2.2).2.2.diskReads = 1 := by
  cases loader <;> simp [load_model_and_data, freshCache]

/-- C4: for a stub model whose inference entry point returns an output
array with first value `v` on any single-row input, `predict_price`
returns exactly `v` (the first output value) with no error effect. -/
theorem predict_price_stub (v : ℚ) (rest : List ℚ) (model : Model)
    (h : ∀ row, model row = Except.ok (v :: rest))
    (location : String) (sqft bath bhk : ℤ) :
    predict_price location sqft bath bhk model = (some v, []) := by
  simp [predict_price, h]

theorem predict_price_stub_witness :
    predict_price "Whitefield" 1000 2 2 (fun _ => Except.ok [85]) = (some 85, []) :=
  predict_price_stub 85 [] _ (fun _ => rfl) "Whitefield" 1000 2 2

/-- C5: `predict_price` never lets an exception escape: every call returns
either a price with no error effect or `None` with a single error effect;
in particular, for a model whose inference entry point raises `e`, it
returns the failure signal `None` together with the descriptive error
message. -/
theorem predict_price_never_raises :
    (∀ (model : Model) (location : String) (sqft bath bhk : ℤ),
        (∃ p, predict_price location sqft bath bhk model = (some p, [])) ∨
        (∃ msg, predict_price location sqft bath bhk model =
          (none, [Effect.error msg]))) ∧
    (∀ (e : String) (model : Model), (∀ row, model row = Except.error e) →
        ∀ (location : String) (sqft bath bhk : ℤ),
        predict_price location sqft bath bhk model =
          (none, [Effect.error ("Error making prediction: " ++ e)])) := by
  constructor
  · intro model location sqft bath bhk
    rcases hm : model ⟨location, (sqft : ℚ), (bath : ℚ), (bhk : ℚ)⟩ with e | prediction
    · exact Or.inr ⟨"Error making prediction: " ++ e, by simp [predict_price, hm]⟩
    · rcases prediction with _ | ⟨p, rest⟩
      · exact Or.inr ⟨"Error making prediction: IndexError: index 0 is out of bounds",
          by simp [predict_price, hm]⟩
      · exact Or.inl ⟨p, by simp [predict_price, hm]⟩
  · intro e model h location sqft bath bhk
    simp [predict_price, h]

theorem predict_price_never_raises_witness :
    predict_price "Whitefield" 1000 2 2 (fun _ => Except.error "shape mismatch") =
      (none, [Effect.error ("Error making prediction: " ++ "shape mismatch")]) :=
  predict_price_never_raises.2 "shape mismatch" _ (fun _ => rfl) "Whitefield" 1000 2 2

/-- C8: a failed load is fatal for the session: whenever the load result is
missing a component, `main` shows only the blocking error and returns at
once (no prediction, no further rendering); in particular a run whose
loader raises produces exactly the two error messages, no uncaught
exception, and an early return regardless of the inputs or the button. -/
theorem load_failure_is_fatal :
    (∀ (m : Option Model) (locs : Option (List String)) (locIdx : ℕ)
        (sqftUser bhkUser bathUser : ℤ) (pressed : Bool),
        (m = none ∨ locs = none) →
        mainWithLoad (m, locs) locIdx sqftUser bhkUser bathUser pressed =
          ([Effect.error loadFailMsg], none)) ∧
    (∀ (e : String) (locIdx : ℕ) (sqftUser bhkUser bathUser : ℤ) (pressed : Bool),
        (runApp (Except.error e) freshCache locIdx sqftUser bhkUser bathUser pressed).1 =
          [Effect.error ("Error loading model or data: " ++ e),
           Effect.error loadFailMsg] ∧
        (runApp (Except.error e) freshCache locIdx sqftUser bhkUser bathUser pressed).2.1 =
          none) := by
  constructor
  · intro m locs locIdx sqftUser bhkUser bathUser pressed h
    rcases m with _ | m <;> rcases locs with _ | locs <;>
      simp_all [mainWithLoad]
  · intro e locIdx sqftUser bhkUser bathUser pressed
    simp [runApp, load_model_and_data, freshCache, mainWithLoad]

theorem load_failure_is_fatal_witness :
    mainWithLoad (none, none) 0 1000 2 2 true = ([Effect.error loadFailMsg], none) :=
  load_failure_is_fatal.1 none none 0 1000 2 2 true (Or.inl rfl)

/-- C10: the load operation only ever returns a fully-populated pair — a
model together with the fixed 14-element location list — or `(none, none)`
on failure, never exactly one missing component; this shape is preserved by
the cache, so the single `model is None or locations is None` guard in
`main` covers every failure shape. -/
theorem load_result_shape :
    (∀ (loader : Except String Model) (s : LoadCacheState),
        (∀ r effs, s.cached = some (r, effs) →
          (∃ m, r = (some m, some locationsList)) ∨ r = (none, none)) →
        (∃ m, (load_model_and_data loader s).1 = (some m, some locationsList)) ∨
        (load_model_and_data loader s).1 = (none, none)) ∧
    locationsList.length = 14 := by
  constructor
  · intro loader s hs
    unfold load_model_and_data
    rcases hc : s.cached with _ | ⟨r, effs⟩
    · cases loader
      · exact Or.inr rfl
      · exact Or.inl ⟨_, rfl⟩
    · exact hs r effs hc
  · rfl

theorem load_result_shape_witness :
    (∃ m, (load_model_and_data (Except.error "missing file") freshCache).1 =
      (some m, some locationsList)) ∨
    (load_model_and_data (Except.error "missing file") freshCache).1 = (none, none) :=
  load_result_shape.1 (Except.error "missing file") freshCache
    (fun r effs h => by simp [freshCache] at h)

/-! Concrete evaluations of the `.2f` formatter. -/

theorem fmt2_75_30 : fmt2 (753 / 10) = "75.30" := by
  have h : Int.floor ((753 / 10 : ℚ) * 100 + 1 / 2) = 7530 := by
    rw [Int.floor_eq_iff]
    norm_num
  simp only [fmt2, h]
  decide

theorem fmt2_7_53 : fmt2 (753 / 10 * (1 / 10)) = "7.53" := by
  have h : Int.floor ((753 / 10 * (1 / 10) : ℚ) * 100 + 1 / 2) = 753 := by
    rw [Int.floor_eq_iff]
    norm_num
  simp only [fmt2, h]
  decide

theorem fmt2_8500_00 : fmt2 ((85 : ℚ) * 100000 / 1000) = "8500.00" := by
  have h : Int.floor (((85 : ℚ) * 100000 / 1000) * 100 + 1 / 2) = 850000 := by
    rw [Int.floor_eq_iff]
    norm_num
  simp only [fmt2, h]
  decide

theorem fmt2_42_50 : fmt2 ((85 : ℚ) / 2) = "42.50" := by
  have h : Int.floor (((85 : ℚ) / 2) * 100 + 1 / 2) = 4250 := by
    rw [Int.floor_eq_iff]
    norm_num
  simp only [fmt2, h]
  decide

theorem fmt2_500_00 : fmt2 ((1000 : ℚ) / 2) = "500.00" := by
  have h : Int.floor (((1000 : ℚ) / 2) * 100 + 1 / 2) = 50000 := by
    rw [Int.floor_eq_iff]
    norm_num
  simp only [fmt2, h]
  decide

/-- Trace of a run after a successful load, button pressed, in-range
inputs, against a stub model returning `[v]`: the warnings fire exactly on
their conditions, the price box is rendered, and the three metric tiles
show the formatted ratios. Shared shape lemma for the claims about the
pressed path. -/
theorem mainAfterLoad_stub_trace (v : ℚ) (locs : List String) (locIdx : ℕ)
    (sqft bhk bath : ℤ)
    (hs1 : 100 ≤ sqft) (hs2 : sqft ≤ 2200) (hk1 : 1 ≤ bhk) (hk2 : bhk ≤ 10)
    (hb1 : 1 ≤ bath) (hb2 : bath ≤ 10) :
    mainAfterLoad (fun _ => Except.ok [v]) locs locIdx sqft bhk bath true =
      (headerEffects ++
        (if bath > bhk + 2 then [Effect.warning bathWarnMsg] else []) ++
        (if (sqft : ℚ) / (bhk : ℚ) < 200 then [Effect.warning areaWarnMsg] else []) ++
        [Effect.markdown (priceBoxHtml v)] ++ insightsEffects ++
        [Effect.metric "Price per Sq.ft" ("₹ " ++ fmt2 (v * 100000 / (sqft : ℚ)))] ++
        [Effect.metric "Price per BHK" ("₹ " ++ fmt2 (v / (bhk : ℚ)) ++ " Lakhs")] ++
        [Effect.metric "Area per BHK" (fmt2 ((sqft : ℚ) / (bhk : ℚ)) ++ " sq.ft")] ++
        footerEffects, none) := by
  have hsq := number_input_id hs1 hs2
  have hbk := number_input_id hk1 hk2
  have hbt := number_input_id hb1 hb2
  have hk0 : ((bhk : ℤ) : ℚ) ≠ 0 := intCast_ne_zero_of_one_le hk1
  have hs0 : ((sqft : ℤ) : ℚ) ≠ 0 := intCast_ne_zero_of_one_le (by omega)
  simp [mainAfterLoad, hsq, hbk, hbt, pydiv, hk0, hs0, predict_price, pyMul, pyDivOpt]

/-- C7: end-to-end scenario — location "Whitefield" (option 0), 1000 sqft,
2 bath, 2 bhk, model stub returning 75.3: the price box is rendered with
price string `₹ 75.30 Lakhs` and secondary line `₹ 7.53 Million`
(`price * 0.1` formatted to two decimals). -/
theorem end_to_end_rendered_strings :
    lakhsString (753 / 10) = "₹ 75.30 Lakhs" ∧
    millionString (753 / 10) = "₹ 7.53 Million" ∧
    locationsList.getD 0 "" = "Whitefield" ∧
    Effect.markdown (priceBoxHtml (753 / 10)) ∈
      (runApp (Except.ok (fun _ => Except.ok [753 / 10])) freshCache
        0 1000 2 2 true).1 := by
  refine ⟨?_, ?_, rfl, ?_⟩
  · rw [lakhsString, fmt2_75_30]
    decide
  · rw [millionString, fmt2_7_53]
    decide
  · have ht := mainAfterLoad_stub_trace (753 / 10) locationsList 0 1000 2 2
      (by norm_num) (by norm_num) (by norm_num) (by norm_num) (by norm_num) (by norm_num)
    simp [runApp, load_model_and_data, freshCache, mainWithLoad, ht]

/-- C3: for in-range inputs (with `bhk ≥ 1` as the bedroom control
guarantees) the run emits the bathroom warning iff `bath > bhk + 2` and
the area warning iff `total_sqft / bhk < 200`, and the warnings are
advisory only: the prediction is still made and its price box rendered
whether or not either warning fired. -/
theorem validator_warnings (v : ℚ) (locs : List String) (locIdx : ℕ)
    (sqft bhk bath : ℤ)
    (hs1 : 100 ≤ sqft) (hs2 : sqft ≤ 2200) (hk1 : 1 ≤ bhk) (hk2 : bhk ≤ 10)
    (hb1 : 1 ≤ bath) (hb2 : bath ≤ 10) :
    (Effect.warning bathWarnMsg ∈
        (mainAfterLoad (fun _ => Except.ok [v]) locs locIdx sqft bhk bath true).1 ↔
      bath > bhk + 2) ∧
    (Effect.warning areaWarnMsg ∈
        (mainAfterLoad (fun _ => Except.ok [v]) locs locIdx sqft bhk bath true).1 ↔
      (sqft : ℚ) / (bhk : ℚ) < 200) ∧
    Effect.markdown (priceBoxHtml v) ∈
      (mainAfterLoad (fun _ => Except.ok [v]) locs locIdx sqft bhk bath true).1 := by
  rw [mainAfterLoad_stub_trace v locs locIdx sqft bhk bath hs1 hs2 hk1 hk2 hb1 hb2]
  by_cases h1 : bath > bhk + 2 <;> by_cases h2 : (sqft : ℚ) / (bhk : ℚ) < 200 <;>
    simp [h1, h2, headerEffects, insightsEffects, footerEffects, bathWarnMsg, areaWarnMsg]

theorem validator_warnings_witness :
    ((100 : ℤ) ≤ 100 ∧ (100 : ℤ) ≤ 2200 ∧ (1 : ℤ) ≤ 1 ∧ (1 : ℤ) ≤ 10 ∧
      (1 : ℤ) ≤ 10 ∧ (10 : ℤ) ≤ 10) ∧
    ((Effect.warning bathWarnMsg ∈
        (mainAfterLoad (fun _ => Except.ok [(42 : ℚ)]) locationsList 0 100 1 10 true).1 ↔
      (10 : ℤ) > 1 + 2) ∧
    (Effect.warning areaWarnMsg ∈
        (mainAfterLoad (fun _ => Except.ok [(42 : ℚ)]) locationsList 0 100 1 10 true).1 ↔
      ((100 : ℤ) : ℚ) / ((1 : ℤ) : ℚ) < 200) ∧
    Effect.markdown (priceBoxHtml 42) ∈
      (mainAfterLoad (fun _ => Except.ok [(42 : ℚ)]) locationsList 0 100 1 10 true).1) :=
  ⟨⟨by norm_num, by norm_num, by norm_num, by norm_num, by norm_num, by norm_num⟩,
   validator_warnings 42 locationsList 0 100 1 10 (by norm_num) (by norm_num)
     (by norm_num) (by norm_num) (by norm_num) (by norm_num)⟩

/-- C6: for every successful prediction with in-range inputs, the three
metric tiles show exactly `price * 100000 / total_sqft`, `price / bhk` and
`total_sqft / bhk`, each formatted to two decimals; at the concrete point
`price = 85`, `total_sqft = 1000`, `bhk = 2` the displayed values are
`8500.00`, `42.50` and `500.00`. -/
theorem metrics_values :
    (∀ (v : ℚ) (locs : List String) (locIdx : ℕ) (sqft bhk bath : ℤ),
        100 ≤ sqft → sqft ≤ 2200 → 1 ≤ bhk → bhk ≤ 10 → 1 ≤ bath → bath ≤ 10 →
        Effect.metric "Price per Sq.ft" ("₹ " ++ fmt2 (v * 100000 / (sqft : ℚ))) ∈
          (mainAfterLoad (fun _ => Except.ok [v]) locs locIdx sqft bhk bath true).1 ∧
        Effect.metric "Price per BHK" ("₹ " ++ fmt2 (v / (bhk : ℚ)) ++ " Lakhs") ∈
          (mainAfterLoad (fun _ => Except.ok [v]) locs locIdx sqft bhk bath true).1 ∧
        Effect.metric "Area per BHK" (fmt2 ((sqft : ℚ) / (bhk : ℚ)) ++ " sq.ft") ∈
          (mainAfterLoad (fun _ => Except.ok [v]) locs locIdx sqft bhk bath true).1) ∧
    fmt2 ((85 : ℚ) * 100000 / 1000) = "8500.00" ∧
    fmt2 ((85 : ℚ) / 2) = "42.50" ∧
    fmt2 ((1000 : ℚ) / 2) = "500.00" := by
  refine ⟨?_, fmt2_8500_00, fmt2_42_50, fmt2_500_00⟩
  intro v locs locIdx sqft bhk bath hs1 hs2 hk1 hk2 hb1 hb2
  rw [mainAfterLoad_stub_trace v locs locIdx sqft bhk bath hs1 hs2 hk1 hk2 hb1 hb2]
  refine ⟨?_, ?_, ?_⟩ <;> simp [headerEffects, insightsEffects, footerEffects]

theorem metrics_values_witness :
    ((100 : ℤ) ≤ 1000 ∧ (1000 : ℤ) ≤ 2200 ∧ (1 : ℤ) ≤ 2 ∧ (2 : ℤ) ≤ 10 ∧
      (1 : ℤ) ≤ 2 ∧ (2 : ℤ) ≤ 10) ∧
    Effect.metric "Price per Sq.ft"
        ("₹ " ++ fmt2 ((85 : ℚ) * 100000 / ((1000 : ℤ) : ℚ))) ∈
      (mainAfterLoad (fun _ => Except.ok [(85 : ℚ)]) locationsList 0 1000 2 2 true).1 ∧
    Effect.metric "Price per BHK"
        ("₹ " ++ fmt2 ((85 : ℚ) / ((2 : ℤ) : ℚ)) ++ " Lakhs") ∈
      (mainAfterLoad (fun _ => Except.ok [(85 : ℚ)]) locationsList 0 1000 2 2 true).1 ∧
    Effect.metric "Area per BHK"
        (fmt2 (((1000 : ℤ) : ℚ) / ((2 : ℤ) : ℚ)) ++ " sq.ft") ∈
      (mainAfterLoad (fun _ => Except.ok [(85 : ℚ)]) locationsList 0 1000 2 2 true).1 :=
  ⟨⟨by norm_num, by norm_num, by norm_num, by norm_num, by norm_num, by norm_num⟩,
   metrics_values.1 85 locationsList 0 1000 2 2 (by norm_num) (by norm_num)
     (by norm_num) (by norm_num) (by norm_num) (by norm_num)⟩

/-- Whatever the model does and whatever the user requests, no run of the
post-load body raises `ZeroDivisionError`: the widget clamps make every
divisor nonzero. -/
theorem mainAfterLoad_no_zero_div (model : Model) (locs : List String)
    (locIdx : ℕ) (s k b : ℤ) (pressed : Bool) :
    (mainAfterLoad model locs locIdx s k b pressed).2 ≠ some zeroDivMsg := by
  have hk0 : ((number_input 1 10 k : ℤ) : ℚ) ≠ 0 :=
    intCast_ne_zero_of_one_le (number_input_ge_min 1 10 k)
  have hs0 : ((number_input 100 2200 s : ℤ) : ℚ) ≠ 0 :=
    intCast_ne_zero_of_one_le
      (le_trans (by norm_num) (number_input_ge_min 100 2200 s))
  cases pressed
  · simp [mainAfterLoad]
  · rcases hp : (predict_price (locs[locIdx]?.getD "") (number_input 100 2200 s)
        (number_input 1 10 b) (number_input 1 10 k) model).1 with _ | pv <;>
      simp [mainAfterLoad, pydiv, hk0, hs0, hp, pyMul, pyDivOpt,
        typeErrMulMsg, zeroDivMsg]

/-- The guard layer never introduces a `ZeroDivisionError` either. -/
theorem mainWithLoad_no_zero_div (loaded : Option Model × Option (List String))
    (locIdx : ℕ) (s k b : ℤ) (pressed : Bool) :
    (mainWithLoad loaded locIdx s k b pressed).2 ≠ some zeroDivMsg := by
  rcases loaded with ⟨_ | m, _ | locs⟩
  · simp [mainWithLoad]
  · simp [mainWithLoad]
  · simp [mainWithLoad]
  · simpa [mainWithLoad] using mainAfterLoad_no_zero_div m locs locIdx s k b pressed

/-- C9: the bedroom control's declared minimum of 1 makes every division by
`bhk` in the program division-by-zero-free: the control always yields
`bhk ≥ 1`, both plain divisions by `bhk` (the validator ratio and the
area-per-BHK metric) and the price-per-BHK division succeed, and no run of
the app ever ends in an uncaught `ZeroDivisionError`. -/
theorem bhk_division_safe :
    (∀ userVal : ℤ, 1 ≤ number_input 1 10 userVal) ∧
    (∀ (userVal : ℤ) (a : ℚ),
        pydiv a ((number_input 1 10 userVal : ℤ) : ℚ) =
          Except.ok (a / ((number_input 1 10 userVal : ℤ) : ℚ))) ∧
    (∀ (userVal : ℤ) (p : ℚ),
        pyDivOpt (some p) ((number_input 1 10 userVal : ℤ) : ℚ) =
          Except.ok (p / ((number_input 1 10 userVal : ℤ) : ℚ))) ∧
    (∀ (loader : Except String Model) (cache : LoadCacheState) (locIdx : ℕ)
        (sqftUser bhkUser bathUser : ℤ) (pressed : Bool),
        (runApp loader cache locIdx sqftUser bhkUser bathUser pressed).2.1 ≠
          some zeroDivMsg) := by
  have h0 : ∀ u : ℤ, ((number_input 1 10 u : ℤ) : ℚ) ≠ 0 := fun u =>
    intCast_ne_zero_of_one_le (number_input_ge_min 1 10 u)
  refine ⟨fun u => number_input_ge_min 1 10 u, ?_, ?_, ?_⟩
  · intro u a
    simp [pydiv, h0 u]
  · intro u p
    simp [pyDivOpt, pydiv, h0 u]
  · intro loader cache locIdx s k b pressed
    simpa [runApp] using
      mainWithLoad_no_zero_div (load_model_and_data loader cache).1 locIdx s k b pressed

/-- C2 (code bug, refuting the claim as stated): when the prediction call
raises on a button press, the user does see the non-fatal error message
and no price box is rendered — but the run then crashes anyway: `price` is
bound to `None`, so the metrics section's `price * 100000` raises a
`TypeError` that escapes `main` uncaught. The trace of the failing run is
computed exactly: it ends at the Price Insights header, with the uncaught
`TypeError` as the run's exception. -/
theorem inference_failure_crashes_run :
    (runApp (Except.ok (fun _ => Except.error "malformed input record"))
        freshCache 0 1000 2 2 true).1 =
      headerEffects ++
        [Effect.error ("Error making prediction: " ++ "malformed input record")] ++
        insightsEffects ∧
    (runApp (Except.ok (fun _ => Except.error "malformed input record"))
        freshCache 0 1000 2 2 true).2.1 = some typeErrMulMsg := by
  have e1 : number_input 100 2200 1000 = 1000 := number_input_id (by norm_num) (by norm_num)
  have e2 : number_input 1 10 2 = 2 := number_input_id (by norm_num) (by norm_num)
  have hk0 : (((2 : ℤ) : ℚ)) ≠ 0 := by norm_num
  have hb : ¬ ((2 : ℤ) + 2 < 2) := by norm_num
  constructor
  · simp [runApp, load_model_and_data, freshCache, mainWithLoad, mainAfterLoad,
      e1, e2, pydiv, hk0, hb, predict_price, pyMul]
    norm_num
  · simp [runApp, load_model_and_data, freshCache, mainWithLoad, mainAfterLoad,
      e1, e2, pydiv, hk0, hb, predict_price, pyMul]

end BengaluruApp
